import Mathlib

/-!
Verification of the parallel-execution engine in src/ptb/pe.py against its
natural-language specification.

Shallow embedding conventions:

- Python values are embedded as the inductive type PVal. The class
  ParexecErrorReturn (pe.py lines 112-125) is embedded as the constructor
  PVal.verr carrying its msg string; the namedtuple Cpdata (line 107,
  fields state, func, input) is embedded as the constructor PVal.vcp.
- The filesystem is a partial map from path strings to file contents.
  The composition of pickle.dump and lz4.frame compression used by the
  checkpoint store (lines 595-597) is embedded as the injective
  constructor FileData.lz4pickle: the round-trip guarantee of the
  serializer pair is the standard library contract and is modelled by
  constructor injectivity. Plain-text files (progress, stderr) are
  FileData.text.
- Python floats that may be NaN (the timeout argument and the global
  my_end_time) are embedded as Option Rat with none playing NaN; the
  IEEE rule that every ordered comparison against NaN is False is the
  floatGtNan function.
- The user-supplied callable is embedded twice, reflecting the two roles
  it plays in the source: as a semantic function (UserFunc, what happens
  when it is invoked) and as a picklable reference (a PVal stored inside
  checkpoint records). A user function can read and write files (it may
  call progressrep or write_checkpoint) and either returns a value or
  raises; its outcome is UFOutcome.
- Machine integers do not occur on any verified path; job counts are Nat
  and times are Rat.
-/

/-- Embedded Python values. verr is ParexecErrorReturn (pe.py 112);
vcp is the Cpdata namedtuple (pe.py 107) with fields state, func, input;
vfunc is an opaque picklable reference to a callable. -/
inductive PVal where
  | vnone : PVal
  | vint : Int → PVal
  | vstr : String → PVal
  | verr : String → PVal
  | vpair : PVal → PVal → PVal
  | vfunc : Nat → PVal
  | vcp : PVal → PVal → PVal → PVal
deriving DecidableEq, Repr

/-- Attribute lookup on the embedded Cpdata namedtuple: the fields declared
at pe.py line 107 are exactly state, func and input. Any other attribute
name (in particular args) yields none, which models AttributeError. -/
def cpGetattr : PVal → String → Option PVal
  | .vcp s _ _, "state" => some s
  | .vcp _ f _, "func" => some f
  | .vcp _ _ a, "input" => some a
  | _, _ => none

/-- Python str() of an embedded value; only the ParexecErrorReturn case
(repr returns self.msg, pe.py 124-125) is relied on by any claim. -/
def pvalStr : PVal → String
  | .vnone => "None"
  | .vint i => toString i
  | .vstr s => s
  | .verr m => m
  | .vpair _ _ => "(pair)"
  | .vfunc k => "function" ++ toString k
  | .vcp _ _ _ => "Cpdata"

/-- True exactly for ParexecErrorReturn instances (isinstance check in the
scheduler, pe.py 446 and 462). -/
def isPER : PVal → Bool
  | .verr _ => true
  | _ => false

/-- True for the reserved checkpoint sentinel ParexecErrorReturn with msg
equal to the string checkpointed (pe.py 446). -/
def isCheckpointedSentinel : PVal → Bool
  | .verr m => m == "checkpointed"
  | _ => false

/-- Contents of one file: either the lz4-compressed pickle of a value
(checkpoint files, pe.py 595-597) or plain text (progress and log files). -/
inductive FileData where
  | lz4pickle : PVal → FileData
  | text : String → FileData
deriving DecidableEq, Repr

/-- The filesystem, as a partial map from path strings to contents. -/
def FS : Type := String → Option FileData

/-- The empty filesystem. -/
def emptyFS : FS := fun _ => none

/-- Writing (creating or overwriting) one file. -/
def fsWrite (fs : FS) (name : String) (d : FileData) : FS :=
  fun n => if n = name then some d else fs n

/-- os.remove of one file. -/
def fsRemove (fs : FS) (name : String) : FS :=
  fun n => if n = name then none else fs n

/-- os.path.exists. -/
def fsExists (fs : FS) (name : String) : Bool :=
  (fs name).isSome

/-- Appending text to a file opened with mode a (stderr dumps,
pe.py 468-469): concatenates to the existing text, creating the file if
absent; non-text prior contents are abstracted as overwritten. -/
def fsAppend (fs : FS) (name : String) (s : String) : FS :=
  match fs name with
  | some (.text old) => fsWrite fs name (.text (old ++ s))
  | _ => fsWrite fs name (.text s)

/-- Ordered comparison of a real time against a possibly-NaN float
(my_end_time): now > nan is False in IEEE arithmetic, which is what makes
progressrep always answer False for local and inline jobs (pe.py 629). -/
def floatGtNan (now : Rat) : Option Rat → Bool
  | none => false
  | some t => decide (now > t)

/-- The module-level globals set by _pe_wrapper (pe.py 543-547) and by the
debug branch of start (pe.py 366-371): checkpoint file base name, absolute
deadline (none is NaN), the job input tuple and the callable reference. -/
structure Globals where
  my_cp_fname_base : String
  my_end_time : Option Rat
  my_args : PVal
  my_func : PVal

/-- Builds the globals exactly as _pe_wrapper does (pe.py 543-547):
my_end_time is time.monotonic() + 60 * timeout, which is NaN when the
timeout is NaN (local dispatch passes np.nan, pe.py 386). -/
def mkGlobals (cp_fname_base : String) (timeout : Option Rat) (now : Rat)
    (args func : PVal) : Globals :=
  { my_cp_fname_base := cp_fname_base
  , my_end_time := timeout.map (fun t => now + 60 * t)
  , my_args := args
  , my_func := func }

/-- write_checkpoint (pe.py 582-599): picks the regular checkpoint name or
the tagged name, dumps the Cpdata triple of state, my_func and my_args as
a compressed pickle, and returns the new filesystem with the saved file
location. -/
def write_checkpoint (g : Globals) (fs : FS) (state : PVal)
    (tag : Option String) : FS × String :=
  let cp_file := match tag with
    | none => g.my_cp_fname_base ++ ".checkpoint"
    | some t => g.my_cp_fname_base ++ ".checkpoint" ++ "_" ++ t
  (fsWrite fs cp_file (.lz4pickle (.vcp state g.my_func g.my_args)), cp_file)

/-- load_checkpoint_state (pe.py 601-607): unpickles the file and returns
the state attribute of the record; a missing file or a file that does not
hold a pickled object with a state attribute raises. -/
def load_checkpoint_state (fs : FS) (fname : String) : Except String PVal :=
  match fs fname with
  | some (.lz4pickle cp) =>
    match cpGetattr cp "state" with
    | some s => .ok s
    | none => .error "AttributeError: state"
  | some (.text _) => .error "UnpicklingError"
  | none => .error "FileNotFoundError"

/-- restore_checkpoint (pe.py 609-616): unpickles the file into cp and
evaluates cp.func(cp.state, *cp.args[0], **cp.args[1]). The Python
evaluation order resolves the attributes cp.func, cp.state, cp.args in
that order before the call; callSem gives the semantics of calling the
stored function reference on the state and argument tuple. -/
def restore_checkpoint (callSem : PVal → PVal → PVal → Except String PVal)
    (fs : FS) (fname : String) : Except String PVal :=
  match fs fname with
  | some (.lz4pickle cp) =>
    match cpGetattr cp "func" with
    | none => .error "AttributeError: func"
    | some f =>
      match cpGetattr cp "state" with
      | none => .error "AttributeError: state"
      | some s =>
        match cpGetattr cp "args" with
        | none => .error "AttributeError: Cpdata object has no attribute args"
        | some a => callSem f s a
  | some (.text _) => .error "UnpicklingError"
  | none => .error "FileNotFoundError"

/-- checkpoint (pe.py 574-580): writes the regular checkpoint and returns
the reserved sentinel ParexecErrorReturn checkpointed as the value the
user function should return. -/
def checkpoint (g : Globals) (fs : FS) (state : PVal) : PVal × FS :=
  (.verr "checkpointed", (write_checkpoint g fs state none).1)

/-- progressrep (pe.py 618-629): overwrites the progress file with
str(np.ceil(100 * progress)) and answers whether time.monotonic() has
passed my_end_time (always False when the deadline is NaN). The textual
formatting of the ceiling float is abstracted to the decimal form of the
integer ceiling. -/
def progressrep (g : Globals) (now : Rat) (fs : FS) (progress : Rat) :
    FS × Bool :=
  let progress_file := g.my_cp_fname_base ++ ".progress"
  (fsWrite fs progress_file (.text (toString ⌈100 * progress⌉)),
   floatGtNan now g.my_end_time)

/-- Outcome of invoking a user function: it hands back the filesystem it
may have modified and either returns a value or raises with a formatted
traceback string. -/
inductive UFOutcome where
  | ret : PVal → FS → UFOutcome
  | raise : String → FS → UFOutcome

/-- The value returned by an outcome, if it did return. -/
def retValOf : UFOutcome → Option PVal
  | .ret v _ => some v
  | .raise _ _ => none

/-- Semantics of a user-supplied callable: from the resume state, the
input tuple, the ambient globals and the filesystem to an outcome. -/
def UserFunc : Type := PVal → PVal → Globals → FS → UFOutcome

/-- The guarded invocation at pe.py 562-566: the try block around the call
of func converts any raise into a ParexecErrorReturn holding the formatted
traceback, so the wrapper itself never raises from this point. -/
def runUser (funcSem : UserFunc) (st args : PVal) (g : Globals) (fs : FS) :
    Except String (PVal × FS) :=
  match funcSem st args g fs with
  | .ret v fs2 => .ok (v, fs2)
  | .raise tb fs2 => .ok (.verr tb, fs2)

/-- _pe_wrapper (pe.py 530-572): sets the globals, consumes the checkpoint
file if it exists (load then delete, before the user function runs),
redirects the standard streams (abstracted away; log files are not
modelled beyond their names), then invokes the user function under the
catch-all of runUser. A failure while loading the checkpoint itself is
outside the try block and propagates as an error. The delivery of the
result (pipe send or plain return) is the returned value. -/
def pe_wrapper (funcSem : UserFunc) (funcVal : PVal) (args : PVal)
    (timeout : Option Rat) (now : Rat) (cp_fname_base log_fname_base : String)
    (fs : FS) : Except String (PVal × FS) :=
  let g := mkGlobals cp_fname_base timeout now args funcVal
  let cp_file := cp_fname_base ++ ".checkpoint"
  if fsExists fs cp_file then
    match load_checkpoint_state fs cp_file with
    | .error e => .error e
    | .ok st => runUser funcSem st args g (fsRemove fs cp_file)
  else
    runUser funcSem .vnone args g fs

/-- One pass of the cleanup loop body at pe.py 518-524 for a single
checkpoint file base: remove the progress file if present, then the
regular checkpoint file if present. -/
def sweepStep (fs : FS) (cp_file : String) : FS :=
  let fs1 := if fsExists fs (cp_file ++ ".progress")
    then fsRemove fs (cp_file ++ ".progress") else fs
  if fsExists fs1 (cp_file ++ ".checkpoint")
    then fsRemove fs1 (cp_file ++ ".checkpoint") else fs1

/-- The finally-block cleanup sweep of start (pe.py 515-524): for every
job checkpoint base, remove its progress and regular checkpoint files. -/
def sweep (bases : List String) (fs : FS) : FS :=
  bases.foldl sweepStep fs

/-!
The scheduling loop of start (pe.py 343-513), as a transition system.
One stepIter is one iteration of the while loop at line 350. Workers and
the grid run outside the orchestrator process, so what the loop observes
about them each iteration (process liveness, pipe contents, future
completion, files becoming visible on the shared filesystem) is supplied
by an environment record Env; the orchestrator itself is deterministic
in the environment.

The grid submission call itself is commented out in the source
(pe.py 396-402). Modelled from the spec: the Remote Backend is the
abstract interface of section 4.3 of the spec, a future-like handle that
is polled with isDone and isCancelled and whose result is the value the
wrapper returned on the remote host (or raises). Env.remoteObs supplies
that observation; Env.appear supplies files written on remote hosts that
become visible to the orchestrator (the spec notes filesystem visibility
is not instantaneous, which is why status 6 exists at all).
-/

/-- What the orchestrator observes when polling the pipe of a local worker
whose process has exited (pe.py 414-424): nothing was sent, a value was
received, or recv itself raised with a formatted traceback. -/
inductive PipeObs where
  | empty : PipeObs
  | val : PVal → PipeObs
  | recvErr : String → PipeObs

/-- What the orchestrator observes from a completed remote future
(pe.py 433-444): cancelled, a result value, or result() raised. -/
inductive RemoteObs where
  | cancelled : RemoteObs
  | res : PVal → RemoteObs
  | resErr : String → RemoteObs

/-- The per-iteration environment: which local worker processes are no
longer alive and what their pipes hold, which remote futures are done and
what they deliver, and which remotely-written files become visible on the
orchestrator filesystem this iteration. -/
structure Env (n : Nat) where
  localExited : Fin n → Bool
  pipeObs : Fin n → PipeObs
  remoteDone : Fin n → Bool
  remoteObs : Fin n → RemoteObs
  appear : List (String × FileData)

/-- Static data of one start() run: the debug flag, the two capacity caps,
the job inputs, the user function (semantics and picklable reference) and
the derived per-job checkpoint and log file bases. -/
structure Ctx (n : Nat) where
  debug : Bool
  num_locals : Nat
  num_remotes : Nat
  inputs : Fin n → PVal
  funcSem : UserFunc
  funcVal : PVal
  cpBases : Fin n → String
  logBases : Fin n → String

/-- The mutable state owned by the scheduling loop: the numeric status
array (pe.py 277-285: 0 waiting, 1 inline, 2 local, 3 remote, 4 finished,
5 error, 6 awaiting checkpoint file), the num_cps_done float array
(pe.py 289, initialized to zeros and, in the source, never written again),
the result slots, the sets of running local jobs and outstanding remote
futures, and the filesystem. resumedGhost is specification-side
accounting only, counting how many checkpoint files each job has actually
consumed (incremented at each re-scheduling of an awaiting job); no code
reads it. -/
structure LoopState (n : Nat) where
  status : Fin n → Nat
  num_cps_done : Fin n → Rat
  rets : Fin n → PVal
  localRunning : List (Fin n)
  remoteFutures : List (Fin n)
  fs : FS
  resumedGhost : Fin n → Nat

/-- Pointwise update of a function out of Fin n (assignment into one cell
of a numpy array or Python list). -/
def upd {n : Nat} {α : Type} (f : Fin n → α) (i : Fin n) (v : α) :
    Fin n → α :=
  fun j => if j = i then v else f j

/-- np.ma.MaskedArray(vals, mask).argmin(): index of the smallest value
among the unmasked entries, the earliest such index on ties; none when
everything is masked (the caller guards against that). -/
def maskedArgmin {n : Nat} (vals : Fin n → Rat) (masked : Fin n → Bool) :
    Option (Fin n) :=
  (List.finRange n).foldl
    (fun acc i =>
      if masked i then acc
      else match acc with
        | none => some i
        | some j => if vals i < vals j then some i else acc)
    none

/-- The guard at pe.py 353: not all(status > 0), that is, some job is
still waiting. -/
def anyWaiting {n : Nat} (s : LoopState n) : Bool :=
  (List.finRange n).any (fun i => s.status i == 0)

/-- The dispatch part of one iteration (pe.py 352-403): when some job is
waiting, pick the masked argmin of num_cps_done over the non-waiting mask
and start it inline (debug), locally if a slot is free, or remotely if
below the remote cap, else leave it waiting. In debug mode the user
function runs synchronously right here with start_state None and deadline
NaN (pe.py 366-375); an exception it raises is not caught and aborts the
iteration, surfacing as the first component. -/
def dispatch {n : Nat} (ctx : Ctx n) (s : LoopState n) :
    Option String × LoopState n :=
  if anyWaiting s then
    match maskedArgmin s.num_cps_done (fun i => decide (0 < s.status i)) with
    | none => (none, s)
    | some nextidx =>
      if ctx.debug then
        let s1 : LoopState n := { s with status := upd s.status nextidx 1 }
        let g := mkGlobals (ctx.cpBases nextidx) none 0
          (ctx.inputs nextidx) ctx.funcVal
        match ctx.funcSem .vnone (ctx.inputs nextidx) g s1.fs with
        | .raise tb fs2 => (some tb, { s1 with fs := fs2 })
        | .ret v fs2 =>
          (none, { s1 with
                   fs := fs2,
                   rets := upd s1.rets nextidx v,
                   status := upd s1.status nextidx 4 })
      else if s.localRunning.length < ctx.num_locals then
        (none, { s with
                 status := upd s.status nextidx 2,
                 localRunning := s.localRunning ++ [nextidx] })
      else if s.remoteFutures.length < ctx.num_remotes then
        (none, { s with
                 status := upd s.status nextidx 3,
                 remoteFutures := s.remoteFutures ++ [nextidx] })
      else (none, s)
  else (none, s)

/-- Reaping local workers (pe.py 409-428): every job whose process is no
longer alive is removed from the running set; an empty pipe marks the
result terminated (status untouched), a received value or a recv failure
stores the result and sets status 4. -/
def reapLocal {n : Nat} (env : Env n) (s : LoopState n) : LoopState n :=
  let s1 := (s.localRunning.filter (fun i => env.localExited i)).foldl
    (fun st i =>
      match env.pipeObs i with
      | .empty => { st with
                    rets := upd st.rets i (.verr "terminated") }
      | .val v => { st with
                    rets := upd st.rets i v,
                    status := upd st.status i 4 }
      | .recvErr tb => { st with
                         rets := upd st.rets i (.verr tb),
                         status := upd st.status i 4 })
    s
  { s1 with localRunning := s.localRunning.filter (fun i => !env.localExited i) }

/-- The special-casing of a finished remote result (pe.py 446-456): the
reserved checkpointed sentinel sends the job to status 6 with its result
slot reset to None; anything else is a normal finish with status 4. -/
def checkpointedCheck {n : Nat} (st : LoopState n) (i : Fin n) : LoopState n :=
  if isCheckpointedSentinel (st.rets i) then
    { st with status := upd st.status i 6, rets := upd st.rets i .vnone }
  else
    { st with status := upd st.status i 4 }

/-- Reaping remote futures (pe.py 430-458): done futures leave the
outstanding set; a cancelled future marks the result terminated (status
untouched), otherwise the delivered result (or the formatted failure of
result()) is stored and the checkpointed special case applies. -/
def reapRemote {n : Nat} (env : Env n) (s : LoopState n) : LoopState n :=
  let s1 := (s.remoteFutures.filter (fun i => env.remoteDone i)).foldl
    (fun st i =>
      match env.remoteObs i with
      | .cancelled => { st with rets := upd st.rets i (.verr "terminated") }
      | .res v => checkpointedCheck { st with rets := upd st.rets i v } i
      | .resErr tb =>
        checkpointedCheck { st with rets := upd st.rets i (.verr tb) } i)
    s
  { s1 with remoteFutures := s.remoteFutures.filter (fun i => !env.remoteDone i) }

/-- The end-of-iteration scan (pe.py 460-473), in index order: a job with
status below 5 whose result slot holds a ParexecErrorReturn flips to
status 5 and its message is appended to the job stderr log; then a job at
status 6 whose checkpoint file is visible on disk goes back to status 0
(and the ghost resumption counter records one more consumed checkpoint). -/
def scanPhase {n : Nat} (ctx : Ctx n) (s : LoopState n) : LoopState n :=
  (List.finRange n).foldl
    (fun st i =>
      let st1 :=
        if st.status i < 5 && isPER (st.rets i) then
          { st with
            status := upd st.status i 5,
            fs := fsAppend st.fs (ctx.logBases i ++ ".stderr")
              (pvalStr (st.rets i)) }
        else st
      if st1.status i == 6 && fsExists st1.fs (ctx.cpBases i ++ ".checkpoint")
      then
        { st1 with
          status := upd st1.status i 0,
          resumedGhost := upd st1.resumedGhost i (st1.resumedGhost i + 1) }
      else st1)
    s

/-- Files written by remote workers becoming visible this iteration. -/
def applyAppear (xs : List (String × FileData)) (fs : FS) : FS :=
  xs.foldl (fun f p => fsWrite f p.1 p.2) fs

/-- One full iteration of the while loop at pe.py 350: dispatch, the
pacing sleep (no state), reap local workers, reap remote futures, scan.
An uncaught exception in the debug dispatch aborts the iteration and is
reported in the first component; progress-bar rendering reads state only
and is not modelled. -/
def stepIter {n : Nat} (ctx : Ctx n) (env : Env n) (s : LoopState n) :
    Option String × LoopState n :=
  let sA : LoopState n := { s with fs := applyAppear env.appear s.fs }
  match dispatch ctx sA with
  | (some tb, s1) => (some tb, s1)
  | (none, s1) => (none, scanPhase ctx (reapRemote env (reapLocal env s1)))

/-- The while condition at pe.py 350: any(status < 4). Note that status 6
(awaiting checkpoint file) does not satisfy it. -/
def loopCond {n : Nat} (s : LoopState n) : Bool :=
  (List.finRange n).any (fun i => s.status i < 4)

/-- How a run of the scheduling loop ends: the while condition became
false (normal exit), an exception escaped an iteration, or the supplied
environment script ran out while the loop was still going (a model
artifact standing for a still-running scheduler). -/
inductive LoopRes (n : Nat) where
  | exited : LoopState n → LoopRes n
  | raised : String → LoopState n → LoopRes n
  | running : LoopState n → LoopRes n

/-- The loop state carried by a loop result. -/
def LoopRes.state {n : Nat} : LoopRes n → LoopState n
  | .exited s => s
  | .raised _ s => s
  | .running s => s

/-- Whether the loop exited normally, through the while condition. -/
def LoopRes.exitedNormally {n : Nat} : LoopRes n → Bool
  | .exited _ => true
  | _ => false

/-- Running the while loop under an environment script, one Env per
iteration. -/
def runLoop {n : Nat} (ctx : Ctx n) : List (Env n) → LoopState n → LoopRes n
  | envs, s =>
    if loopCond s = false then .exited s
    else match envs with
      | [] => .running s
      | e :: rest =>
        match stepIter ctx e s with
        | (some tb, s1) => .raised tb s1
        | (none, s1) => runLoop ctx rest s1

/-- The initial loop state built by start before the loop (pe.py 285-315):
all statuses 0, the num_cps_done zeros array, all result slots None, no
running jobs, no outstanding futures. -/
def initState {n : Nat} (fs0 : FS) : LoopState n :=
  { status := fun _ => 0
  , num_cps_done := fun _ => 0
  , rets := fun _ => .vnone
  , localRunning := []
  , remoteFutures := []
  , fs := fs0
  , resumedGhost := fun _ => 0 }

/-- The list of per-job checkpoint file bases of a run. -/
def basesList {n : Nat} (ctx : Ctx n) : List String :=
  (List.finRange n).map ctx.cpBases

/-- The tail of start after the loop (pe.py 515-528): whatever way the
loop ended, the finally block sweeps every progress and regular
checkpoint file of the batch, and then either the rets list is returned
or the pending exception resumes its propagation. -/
def startFinish {n : Nat} (ctx : Ctx n) (r : LoopRes n) :
    Except String (List PVal) × FS :=
  match r with
  | .exited s => (.ok (List.ofFn s.rets), sweep (basesList ctx) s.fs)
  | .raised tb s => (.error tb, sweep (basesList ctx) s.fs)
  | .running s => (.error "model: scheduler still running", sweep (basesList ctx) s.fs)

/-- start (pe.py 127-528), from the initial state through the loop to the
finally block: the pair of the returned value (or escaped exception) and
the final filesystem. -/
def startModel {n : Nat} (ctx : Ctx n) (fs0 : FS) (envs : List (Env n)) :
    Except String (List PVal) × FS :=
  startFinish ctx (runLoop ctx envs (initState fs0))

/-!
Concrete runs used to settle individual claims.
-/

/-- One job input tuple: empty positional arguments and empty keyword
arguments. -/
def argsv : PVal := .vpair .vnone .vnone

/-- A user function that immediately self-checkpoints, following the
recommended pattern of the module docstring: it saves state 7 through
checkpoint() and returns the reserved sentinel that call produces. -/
def cpSelfFunc : UserFunc := fun _ _ g fs =>
  .ret (checkpoint g fs (.vint 7)).1 (checkpoint g fs (.vint 7)).2

/-- A user function that always raises with a fixed formatted traceback. -/
def raisingFunc : UserFunc := fun _ _ _ fs => .raise "ValueError traceback" fs

/-- An environment in which no worker exits, no future completes and no
remote file becomes visible. -/
def envQuiet (n : Nat) : Env n :=
  { localExited := fun _ => false
  , pipeObs := fun _ => .empty
  , remoteDone := fun _ => false
  , remoteObs := fun _ => .cancelled
  , appear := [] }

/-- A one-job batch with no local slots and one remote slot: the only way
to run the job is on the grid. -/
def ctx1 : Ctx 1 :=
  { debug := false
  , num_locals := 0
  , num_remotes := 1
  , inputs := fun _ => argsv
  , funcSem := cpSelfFunc
  , funcVal := .vfunc 0
  , cpBases := fun _ => "cp/batch__job0"
  , logBases := fun _ => "log/job0" }

/-- The value the wrapper delivers on the remote host when it runs
cpSelfFunc for job 0 of ctx1 against a remote-host filesystem with no
prior checkpoint file; proved below to be the checkpointed sentinel. -/
def remoteWrapperVal : PVal :=
  match pe_wrapper cpSelfFunc (.vfunc 0) argsv (some 45) 0
      "cp/batch__job0" "log/job0" emptyFS with
  | .ok (v, _) => v
  | .error _ => .vnone

/-- The environment of the iteration in which the remote future of job 0
completes with the wrapper result, while the checkpoint file written on
the remote host is not yet visible on the orchestrator filesystem (the
spec states filesystem visibility across hosts is not instantaneous). -/
def envRemoteCp : Env 1 :=
  { localExited := fun _ => false
  , pipeObs := fun _ => .empty
  , remoteDone := fun _ => true
  , remoteObs := fun _ => .res remoteWrapperVal
  , appear := [] }

/-- A one-job debug-mode batch whose user function raises. -/
def ctxD : Ctx 1 :=
  { debug := true
  , num_locals := 1
  , num_remotes := 1
  , inputs := fun _ => argsv
  , funcSem := raisingFunc
  , funcVal := .vfunc 0
  , cpBases := fun _ => "cp/batch__job0"
  , logBases := fun _ => "log/job0" }

/-- A two-job batch with no local slots and one remote slot. -/
def ctx5 : Ctx 2 :=
  { debug := false
  , num_locals := 0
  , num_remotes := 1
  , inputs := fun _ => argsv
  , funcSem := cpSelfFunc
  , funcVal := .vfunc 0
  , cpBases := fun i => if i = 0 then "cp/batch__jobA" else "cp/batch__jobB"
  , logBases := fun i => if i = 0 then "log/jobA" else "log/jobB" }

/-- The iteration in which the remote future of job A completes with the
checkpointed sentinel and the checkpoint file it wrote is already visible,
so the scan re-schedules job A in the same iteration. -/
def env5b : Env 2 :=
  { localExited := fun _ => false
  , pipeObs := fun _ => .empty
  , remoteDone := fun _ => true
  , remoteObs := fun _ => .res (.verr "checkpointed")
  , appear := [("cp/batch__jobA.checkpoint",
      .lz4pickle (.vcp (.vint 7) (.vfunc 0) argsv))] }

/-- The loop state after two iterations of the ctx5 run: job A has been
dispatched remotely, has checkpointed once (one checkpoint consumed for
its resumption) and is Waiting again; job B has never run and is also
Waiting. -/
def c5state : LoopState 2 :=
  (stepIter ctx5 env5b (stepIter ctx5 (envQuiet 2) (initState emptyFS)).2).2

/-- Modelled from the spec wording of claim C5 only, for comparison with
the dispatch selection of the code: among Waiting jobs, pick the one with
the fewest checkpoints consumed so far (the ghost resumption count),
breaking ties by input order. -/
def specSelectFewestResumed {n : Nat} (s : LoopState n) : Option (Fin n) :=
  maskedArgmin (fun i => (s.resumedGhost i : Rat))
    (fun i => decide (0 < s.status i))

/-- Globals of a job with id a in batch named batch, as _pe_wrapper would
set them on that job. -/
def gA : Globals := mkGlobals "cp/batch__a" none 0 argsv (.vfunc 0)

/-- A filesystem holding exactly one file: the tagged diagnostic
checkpoint written by write_checkpoint(state, tag) for job a with tag
z.checkpoint; its full name is cp/batch__a.checkpoint_z.checkpoint. -/
def c10fs : FS := (write_checkpoint gA emptyFS (.vint 1) (some "z.checkpoint")).1

/-- A two-job batch whose second jobid extends the first with the string
.checkpoint_z, making the untagged checkpoint name of job two coincide
with a tagged checkpoint name of job one. Unique jobids as start requires. -/
def ctx10 : Ctx 2 :=
  { debug := false
  , num_locals := 1
  , num_remotes := 1
  , inputs := fun _ => argsv
  , funcSem := cpSelfFunc
  , funcVal := .vfunc 0
  , cpBases := fun i => if i = 0 then "cp/batch__a" else "cp/batch__a.checkpoint_z"
  , logBases := fun i => if i = 0 then "log/a" else "log/a.checkpoint_z" }

/-- The full ctx1 run: iteration one dispatches job 0 to the grid (no
local slot is free), iteration two reaps its future, which delivered the
checkpointed sentinel while the checkpoint file was not yet visible. -/
def c1res : LoopRes 1 := runLoop ctx1 [envQuiet 1, envRemoteCp] (initState emptyFS)

/-!
Helper lemmas.
-/

/-- Appending strings of different lengths to one base gives different
strings. -/
theorem append_ne_of_length_ne {a s t : String} (h : s.length ≠ t.length) :
    a ++ s ≠ a ++ t := by
  intro he
  have hl := congrArg String.length he
  simp only [String.length_append] at hl
  omega

/-- A guarded removal empties the removed name. -/
theorem removeIfExists_self (g : FS) (x : String) :
    (if (g x).isSome = true then fsRemove g x else g) x = none := by
  split
  · simp [fsRemove]
  · next h => simpa [Option.not_isSome_iff_eq_none] using h

/-- A guarded removal touches no other name. -/
theorem removeIfExists_other (g : FS) (x y : String) (hyx : y ≠ x) :
    (if (g x).isSome = true then fsRemove g x else g) y = g y := by
  split
  · simp [fsRemove, hyx]
  · rfl

/-- Pointwise behavior of one sweep step: the progress and regular
checkpoint files of its base come out absent, every other name is
untouched. -/
theorem sweepStep_apply (fs : FS) (b name : String) :
    sweepStep fs b name =
      if name = b ++ ".progress" ∨ name = b ++ ".checkpoint" then none
      else fs name := by
  have hne : (b ++ ".checkpoint" : String) ≠ b ++ ".progress" :=
    append_ne_of_length_ne (by decide)
  simp only [sweepStep, fsExists]
  by_cases hp : name = b ++ ".progress"
  · subst hp
    rw [if_pos (Or.inl rfl)]
    rw [removeIfExists_other _ _ _ (fun h => hne h.symm)]
    exact removeIfExists_self fs _
  · by_cases hc : name = b ++ ".checkpoint"
    · subst hc
      rw [if_pos (Or.inr rfl)]
      exact removeIfExists_self _ _
    · rw [removeIfExists_other _ _ _ hc, removeIfExists_other _ _ _ hp,
        if_neg (fun h => h.elim hp hc)]

/-- The whole sweep, pointwise: a name that is neither a checkpoint nor
a progress name of any listed base keeps its contents. -/
theorem sweep_frame {name : String} (bases : List String) (fs : FS)
    (h : ∀ b ∈ bases, name ≠ b ++ ".checkpoint" ∧ name ≠ b ++ ".progress") :
    sweep bases fs name = fs name := by
  induction bases generalizing fs with
  | nil => rfl
  | cons b rest ih =>
    have hb := h b (by simp)
    have step : sweep (b :: rest) fs name = sweep rest (sweepStep fs b) name := rfl
    rw [step, ih (sweepStep fs b) (fun b2 hb2 => h b2 (by simp [hb2])),
      sweepStep_apply]
    exact if_neg (fun hor => hor.elim (fun e => hb.2 e) (fun e => hb.1 e))

/-- The sweep never creates a file: absence is preserved. -/
theorem sweep_none {name : String} (bases : List String) {fs : FS}
    (h : fs name = none) : sweep bases fs name = none := by
  induction bases generalizing fs with
  | nil => exact h
  | cons b rest ih =>
    have step : sweep (b :: rest) fs name = sweep rest (sweepStep fs b) name := rfl
    rw [step]
    refine ih ?_
    rw [sweepStep_apply]
    split
    · rfl
    · exact h

/-- After the sweep, the checkpoint and the progress file of every listed
base are gone. -/
theorem sweep_removes {b : String} (bases : List String) (fs : FS)
    (hb : b ∈ bases) :
    sweep bases fs (b ++ ".checkpoint") = none
    ∧ sweep bases fs (b ++ ".progress") = none := by
  induction bases generalizing fs with
  | nil => cases hb
  | cons x rest ih =>
    rcases List.mem_cons.mp hb with heq | hmem
    · subst heq
      constructor
      · exact sweep_none rest (by rw [sweepStep_apply]; simp)
      · exact sweep_none rest (by rw [sweepStep_apply]; simp)
    · exact ih (sweepStep fs x) hmem

/-- Sweeping twice is the same as sweeping once, pointwise. -/
theorem sweep_idem (bases : List String) (fs : FS) (name : String) :
    sweep bases (sweep bases fs) name = sweep bases fs name := by
  by_cases h : ∃ b ∈ bases, name = b ++ ".checkpoint" ∨ name = b ++ ".progress"
  · obtain ⟨b, hb, hor⟩ := h
    rcases hor with he | he <;> subst he
    · rw [(sweep_removes bases (sweep bases fs) hb).1,
        (sweep_removes bases fs hb).1]
    · rw [(sweep_removes bases (sweep bases fs) hb).2,
        (sweep_removes bases fs hb).2]
  · push_neg at h
    have h2 : ∀ b ∈ bases, name ≠ b ++ ".checkpoint" ∧ name ≠ b ++ ".progress" :=
      fun b hb => ⟨(h b hb).1, (h b hb).2⟩
    rw [sweep_frame bases (sweep bases fs) h2, sweep_frame bases fs h2]

/-- Outside debug mode, the dispatch phase never raises: its exception
slot is always empty. -/
theorem dispatch_fst_none {n : Nat} (ctx : Ctx n) (s : LoopState n)
    (h : ctx.debug = false) : (dispatch ctx s).1 = none := by
  unfold dispatch
  split
  · split
    · rfl
    · rw [h, if_neg Bool.false_ne_true]
      split
      · rfl
      · split <;> rfl
  · rfl

/-- Outside debug mode, a whole loop iteration never raises. -/
theorem stepIter_fst_none {n : Nat} (ctx : Ctx n) (env : Env n)
    (s : LoopState n) (h : ctx.debug = false) :
    (stepIter ctx env s).1 = none := by
  unfold stepIter
  rcases hd : dispatch ctx { s with fs := applyAppear env.appear s.fs }
    with ⟨o, s1⟩
  have ho : o = none := by
    have := dispatch_fst_none ctx { s with fs := applyAppear env.appear s.fs } h
    rw [hd] at this
    exact this
  subst ho
  simp [hd]

/-!
Claim theorems.
-/

/-- C6: for every serializable state S, every globals environment (hence
every function and argument pair) and every prior filesystem, reading
back a checkpoint written for S with load_checkpoint_state returns
exactly S, for the regular checkpoint as well as for any tagged one: the
write/read pair is a round-trip on the state component. -/
theorem checkpoint_state_roundtrip (g : Globals) (fs : FS) (S : PVal)
    (tag : Option String) :
    load_checkpoint_state (write_checkpoint g fs S tag).1
      (write_checkpoint g fs S tag).2 = .ok S := by
  cases tag <;>
    simp [write_checkpoint, load_checkpoint_state, fsWrite, cpGetattr]

/-- C2 (code bug): on every checkpoint file produced by a checkpoint
write, restore_checkpoint does not re-invoke the recorded function: it
stops with an AttributeError, because the record is the namedtuple
Cpdata(state, func, input) (pe.py 107) while the code reads cp.args
(pe.py 616). The call semantics is never consulted. -/
theorem restore_checkpoint_attribute_error
    (callSem : PVal → PVal → PVal → Except String PVal) (g : Globals)
    (fs : FS) (S : PVal) (tag : Option String) :
    restore_checkpoint callSem (write_checkpoint g fs S tag).1
      (write_checkpoint g fs S tag).2
      = .error "AttributeError: Cpdata object has no attribute args" := by
  cases tag <;>
    simp [write_checkpoint, restore_checkpoint, fsWrite, cpGetattr]

/-- C8: progressrep overwrites the progress file of the job with the
reported fraction and returns True exactly when the elapsed running time
now - startT exceeds the soft budget of 60 * T seconds set from the
timeout of T minutes; with the NaN budget that local dispatch (pe.py 386)
and the inline debug branch (pe.py 369) install, it always returns
False. -/
theorem progressrep_soft_budget (base : String) (args func : PVal)
    (startT T now : Rat) (fs : FS) (p : Rat) (tm : Option Rat) :
    ((progressrep (mkGlobals base (some T) startT args func) now fs p).2 = true
      ↔ now - startT > 60 * T)
    ∧ (progressrep (mkGlobals base none startT args func) now fs p).2 = false
    ∧ (progressrep (mkGlobals base tm startT args func) now fs p).1
        (base ++ ".progress") = some (.text (toString (Int.ceil (100 * p)))) := by
  refine ⟨?_, ?_, ?_⟩
  · have he : (progressrep (mkGlobals base (some T) startT args func) now fs p).2
        = decide (now > startT + 60 * T) := rfl
    rw [he]
    simp only [decide_eq_true_eq]
    constructor <;> intro hh <;> linarith
  · rfl
  · simp [progressrep, mkGlobals, fsWrite]

/-- C7: whenever the worker wrapper starts a job (local or remote both
run _pe_wrapper): if the checkpoint file of the job exists, the wrapper
loads its state, deletes the file, and only then invokes the user
function with the loaded state as the resume argument and with a
filesystem in which the file is already gone, so the file is consumed at
most once; if no checkpoint file exists the function is invoked with
None. -/
theorem pe_wrapper_consumes_checkpoint (funcSem : UserFunc)
    (fv args : PVal) (t : Option Rat) (now : Rat) (base lb : String)
    (fs fsA : FS) (S f0 a0 : PVal)
    (hex : fs (base ++ ".checkpoint") = some (.lz4pickle (.vcp S f0 a0)))
    (habs : fsA (base ++ ".checkpoint") = none) :
    pe_wrapper funcSem fv args t now base lb fs
      = runUser funcSem S args (mkGlobals base t now args fv)
          (fsRemove fs (base ++ ".checkpoint"))
    ∧ fsRemove fs (base ++ ".checkpoint") (base ++ ".checkpoint") = none
    ∧ pe_wrapper funcSem fv args t now base lb fsA
      = runUser funcSem .vnone args (mkGlobals base t now args fv) fsA := by
  refine ⟨?_, by simp [fsRemove], ?_⟩
  · simp [pe_wrapper, fsExists, hex, load_checkpoint_state, cpGetattr]
  · simp [pe_wrapper, fsExists, habs]

/-- Witness for C7 at a concrete input: a filesystem holding one
checkpoint with state 3 for base b, and the empty filesystem for the
absent case. -/
theorem pe_wrapper_consumes_checkpoint_witness :
    pe_wrapper cpSelfFunc (.vfunc 0) argsv none 0 "b" "l"
        (fsWrite emptyFS "b.checkpoint" (.lz4pickle (.vcp (.vint 3) (.vfunc 0) argsv)))
      = runUser cpSelfFunc (.vint 3) argsv (mkGlobals "b" none 0 argsv (.vfunc 0))
          (fsRemove (fsWrite emptyFS "b.checkpoint"
            (.lz4pickle (.vcp (.vint 3) (.vfunc 0) argsv))) "b.checkpoint")
    ∧ fsRemove (fsWrite emptyFS "b.checkpoint"
        (.lz4pickle (.vcp (.vint 3) (.vfunc 0) argsv))) "b.checkpoint"
        "b.checkpoint" = none
    ∧ pe_wrapper cpSelfFunc (.vfunc 0) argsv none 0 "b" "l" emptyFS
      = runUser cpSelfFunc .vnone argsv (mkGlobals "b" none 0 argsv (.vfunc 0))
          emptyFS :=
  pe_wrapper_consumes_checkpoint cpSelfFunc (.vfunc 0) argsv none 0 "b" "l"
    (fsWrite emptyFS "b.checkpoint" (.lz4pickle (.vcp (.vint 3) (.vfunc 0) argsv)))
    emptyFS (.vint 3) (.vfunc 0) argsv (by simp [fsWrite]) rfl

/-- C9: the end-of-batch sweep runs on every exit of the scheduling loop
(the final filesystem of start is the sweep of the loop filesystem no
matter how the loop ended, normal exit or escaped exception), it removes
the progress and the regular checkpoint file of every job of the batch,
and performing it twice gives the same filesystem as performing it once
(the removals are guarded by existence checks, so nothing can fail on the
second pass). -/
theorem sweep_runs_on_every_exit {n : Nat} (bases : List String) (fs : FS)
    (name b : String) (ctx : Ctx n) (r : LoopRes n) (hb : b ∈ bases) :
    sweep bases (sweep bases fs) name = sweep bases fs name
    ∧ sweep bases fs (b ++ ".checkpoint") = none
    ∧ sweep bases fs (b ++ ".progress") = none
    ∧ (startFinish ctx r).2 = sweep (basesList ctx) r.state.fs := by
  refine ⟨sweep_idem bases fs name, (sweep_removes bases fs hb).1,
    (sweep_removes bases fs hb).2, ?_⟩
  cases r <;> rfl

/-- Witness for C9 at a concrete input: a one-file filesystem, the base
list of ctx1 and a loop that exited normally from the initial state. -/
theorem sweep_runs_on_every_exit_witness :
    sweep ["cp/batch__job0"] (sweep ["cp/batch__job0"] c10fs) "x"
        = sweep ["cp/batch__job0"] c10fs "x"
    ∧ sweep ["cp/batch__job0"] c10fs ("cp/batch__job0" ++ ".checkpoint") = none
    ∧ sweep ["cp/batch__job0"] c10fs ("cp/batch__job0" ++ ".progress") = none
    ∧ (startFinish ctx1 (.exited (initState emptyFS))).2
        = sweep (basesList ctx1)
            (LoopRes.state (LoopRes.exited (initState emptyFS) : LoopRes 1)).fs :=
  sweep_runs_on_every_exit ["cp/batch__job0"] c10fs "x" "cp/batch__job0"
    ctx1 (LoopRes.exited (initState emptyFS) : LoopRes 1) (by simp)

/-- C10 counterexample: the claim that a tagged diagnostic checkpoint is
never deleted by start fails when the tagged name collides with the
untagged checkpoint name of another job. In the batch ctx10 the jobids
are a and a.checkpoint_z; job a writes a tagged checkpoint with tag
z.checkpoint, whose full name cp/batch__a.checkpoint_z.checkpoint equals
the untagged checkpoint name of the second job, so the end-of-batch sweep
of start deletes it. -/
theorem tagged_checkpoint_deleted_on_collision :
    (write_checkpoint gA emptyFS (.vint 1) (some "z.checkpoint")).2
        = "cp/batch__a.checkpoint_z.checkpoint"
    ∧ c10fs "cp/batch__a.checkpoint_z.checkpoint"
        = some (.lz4pickle (.vcp (.vint 1) (.vfunc 0) argsv))
    ∧ (startFinish ctx10 (.exited (initState c10fs))).2
        "cp/batch__a.checkpoint_z.checkpoint" = none := by
  refine ⟨rfl, by decide, by decide⟩

/-- C10 amended: the sweep changes only files named exactly
b ++ .checkpoint or b ++ .progress for a base b of the batch; any file
whose name differs from all of those is untouched, and a tagged
checkpoint name b ++ .checkpoint_tag never equals the untagged checkpoint
name or the progress name of its own base, so a tagged diagnostic
checkpoint survives the sweep unless its name coincides with the swept
names of some other job of the batch. -/
theorem sweep_spares_tagged_checkpoint (bases : List String) (fs : FS)
    (name b t : String)
    (hname : ∀ b2 ∈ bases, name ≠ b2 ++ ".checkpoint" ∧ name ≠ b2 ++ ".progress") :
    sweep bases fs name = fs name
    ∧ b ++ ".checkpoint" ++ "_" ++ t ≠ b ++ ".checkpoint"
    ∧ b ++ ".checkpoint" ++ "_" ++ t ≠ b ++ ".progress" := by
  refine ⟨sweep_frame bases fs hname, ?_, ?_⟩
  · intro he
    have hl := congrArg String.length he
    simp only [String.length_append] at hl
    have h11 : (".checkpoint" : String).length = 11 := rfl
    have h1 : ("_" : String).length = 1 := rfl
    rw [h11, h1] at hl
    omega
  · intro he
    have hl := congrArg String.length he
    simp only [String.length_append] at hl
    have h9 : (".progress" : String).length = 9 := rfl
    have h11 : (".checkpoint" : String).length = 11 := rfl
    have h1 : ("_" : String).length = 1 := rfl
    rw [h9, h11, h1] at hl
    omega

/-- Witness for C10 amended at a concrete input: the tagged checkpoint of
job a survives the sweep of a batch whose only base is its own base. -/
theorem sweep_spares_tagged_checkpoint_witness :
    sweep ["cp/batch__a"] c10fs "cp/batch__a.checkpoint_z.checkpoint"
        = c10fs "cp/batch__a.checkpoint_z.checkpoint"
    ∧ "cp/batch__a" ++ ".checkpoint" ++ "_" ++ "z.checkpoint"
        ≠ "cp/batch__a" ++ ".checkpoint"
    ∧ "cp/batch__a" ++ ".checkpoint" ++ "_" ++ "z.checkpoint"
        ≠ "cp/batch__a" ++ ".progress" :=
  sweep_spares_tagged_checkpoint ["cp/batch__a"] c10fs
    "cp/batch__a.checkpoint_z.checkpoint" "cp/batch__a" "z.checkpoint"
    (by decide)

/-- C1 (code bug): the while condition any(status smaller than 4) at
pe.py 350 treats status 6 (awaiting checkpoint file) as done. In the
concrete ctx1 run the loop exits normally while job 0 is still in status
6 - not Finished (4) and not Errored (5) - with its result slot reset to
None, so the loop does not wait for every job to reach a terminal status.
The remote observation is honest: the last conjunct shows the delivered
future value is exactly what the wrapper returns when the user function
self-checkpoints on the remote host. -/
theorem loop_exits_while_awaiting_checkpoint :
    c1res.exitedNormally = true
    ∧ loopCond c1res.state = false
    ∧ c1res.state.status 0 = 6
    ∧ c1res.state.rets 0 = .vnone
    ∧ remoteWrapperVal = .verr "checkpointed" := by
  refine ⟨by decide, by decide, by decide, by decide, by decide⟩

/-- C4 (code bug): in the same ctx1 run, start returns a list of the
right length whose only element is None - which is neither the value the
user function returned (cpSelfFunc only ever returns the checkpointed
sentinel, third conjunct) nor a ParexecErrorReturn (second conjunct):
the element is neither of the two allowed outcomes. -/
theorem start_returns_none_for_awaiting_job :
    (startModel ctx1 emptyFS [envQuiet 1, envRemoteCp]).1 = .ok [.vnone]
    ∧ isPER .vnone = false
    ∧ (∀ st a g f, retValOf (cpSelfFunc st a g f) = some (.verr "checkpointed"))
    ∧ PVal.vnone ≠ .verr "checkpointed" := by
  refine ⟨rfl, rfl, fun st a g f => rfl, by decide⟩

/-- C3 counterexample: in debug (inline) dispatch the exception of the
user function is not caught. In the one-job debug batch ctxD the whole
start call aborts with the user exception instead of returning a result
list, so the claim that every dispatch mode catches user exceptions into
an ErrorSentinel and never aborts the batch is false. -/
theorem debug_dispatch_exception_escapes :
    (startModel ctxD emptyFS [envQuiet 1]).1 = .error "ValueError traceback" := rfl

/-- C3 amended: under local and remote dispatch the user function runs
inside _pe_wrapper, whose try block converts any raise into a
ParexecErrorReturn carrying the formatted traceback that becomes the
delivered result, on a resumed run (a checkpoint file exists and its
loaded state is the resume argument, first conjunct) just as on a first
run (no checkpoint file, resume argument None, second conjunct); outside
debug mode no loop iteration can raise, so job failures never abort the
batch (third conjunct); under inline/debug dispatch the exception
escapes the iteration and propagates out of start (fourth conjunct). -/
theorem user_exceptions_caught_outside_debug {m : Nat} (funcSem : UserFunc)
    (args fv : PVal) (t : Option Rat) (now : Rat) (base lb : String)
    (fs fsA fs2 fs2A : FS) (S f0 a0 : PVal) (tb tbA : String)
    (ctx : Ctx m) (env : Env m) (s : LoopState m)
    (hex : fs (base ++ ".checkpoint") = some (.lz4pickle (.vcp S f0 a0)))
    (hraiseR : funcSem S args (mkGlobals base t now args fv)
      (fsRemove fs (base ++ ".checkpoint")) = .raise tb fs2)
    (habs : fsA (base ++ ".checkpoint") = none)
    (hraiseA : funcSem .vnone args (mkGlobals base t now args fv) fsA
      = .raise tbA fs2A)
    (hnd : ctx.debug = false) :
    pe_wrapper funcSem fv args t now base lb fs = .ok (.verr tb, fs2)
    ∧ pe_wrapper funcSem fv args t now base lb fsA = .ok (.verr tbA, fs2A)
    ∧ (stepIter ctx env s).1 = none
    ∧ (stepIter ctxD (envQuiet 1) (initState emptyFS)).1
        = some "ValueError traceback" := by
  refine ⟨?_, ?_, stepIter_fst_none ctx env s hnd, by decide⟩
  · simp [pe_wrapper, fsExists, hex, load_checkpoint_state, cpGetattr,
      runUser, hraiseR]
  · simp [pe_wrapper, fsExists, habs, runUser, hraiseA]

/-- Witness for C3 amended at a concrete input: the always-raising user
function under the wrapper, once resuming from a filesystem holding a
checkpoint with state 3 for base b and once on a first run from the
empty filesystem, one quiet non-debug iteration of ctx1, and the debug
iteration of ctxD. -/
theorem user_exceptions_caught_outside_debug_witness :
    pe_wrapper raisingFunc (.vfunc 0) argsv none 0 "b" "l"
        (fsWrite emptyFS "b.checkpoint"
          (.lz4pickle (.vcp (.vint 3) (.vfunc 0) argsv)))
      = .ok (.verr "ValueError traceback",
          fsRemove (fsWrite emptyFS "b.checkpoint"
            (.lz4pickle (.vcp (.vint 3) (.vfunc 0) argsv))) "b.checkpoint")
    ∧ pe_wrapper raisingFunc (.vfunc 0) argsv none 0 "b" "l" emptyFS
        = .ok (.verr "ValueError traceback", emptyFS)
    ∧ (stepIter ctx1 (envQuiet 1) (initState emptyFS)).1 = none
    ∧ (stepIter ctxD (envQuiet 1) (initState emptyFS)).1
        = some "ValueError traceback" :=
  user_exceptions_caught_outside_debug raisingFunc argsv (.vfunc 0) none 0
    "b" "l"
    (fsWrite emptyFS "b.checkpoint" (.lz4pickle (.vcp (.vint 3) (.vfunc 0) argsv)))
    emptyFS
    (fsRemove (fsWrite emptyFS "b.checkpoint"
      (.lz4pickle (.vcp (.vint 3) (.vfunc 0) argsv))) "b.checkpoint")
    emptyFS (.vint 3) (.vfunc 0) argsv "ValueError traceback"
    "ValueError traceback" ctx1 (envQuiet 1) (initState emptyFS)
    (by simp [fsWrite]) rfl rfl rfl rfl

/-- C5 (code bug): the selection at pe.py 356 is the masked argmin of the
num_cps_done array, but that array is never incremented anywhere in the
source, so dispatch always picks the lowest-index Waiting job no matter
how many checkpoints a job has consumed. In the ctx5 run, job 0 has
consumed one checkpoint (it was re-scheduled from awaiting-checkpoint
once) and job 1 has consumed none, both are Waiting, yet the next
dispatch starts job 0 and leaves job 1 waiting, while the selection the
claim describes (fewest checkpoints consumed, ties by input order) picks
job 1; num_cps_done still reads zero for both. -/
theorem dispatch_ignores_consumed_checkpoints :
    maskedArgmin c5state.num_cps_done (fun i => decide (0 < c5state.status i))
        = some 0
    ∧ (dispatch ctx5 c5state).2.status 0 = 3
    ∧ (dispatch ctx5 c5state).2.status 1 = 0
    ∧ c5state.status 0 = 0 ∧ c5state.status 1 = 0
    ∧ c5state.resumedGhost 0 = 1 ∧ c5state.resumedGhost 1 = 0
    ∧ c5state.num_cps_done 0 = 0 ∧ c5state.num_cps_done 1 = 0
    ∧ specSelectFewestResumed c5state = some 1 := by
  refine ⟨by decide, by decide, by decide, by decide, by decide, by decide,
    by decide, by decide, by decide, by decide⟩
